import Mathlib

/-!
Shallow embedding of the session/event-stream lifecycle core of
wechaty-puppet-service (client: src/client/puppet-service.ts,
server: src/server/event-stream-manager.ts and the event handler of
src/server/grpc-error.ts), with theorems settling the frozen claims.

Modelling conventions:
* JS numbers used as sequence numbers and millisecond timestamps are Nat.
* A protobuf event payload is abstracted to the record fields the core
  reads after JSON.parse (contactId for login, data otherwise); the
  JSON round-trip is treated as the identity.
* Stateful methods become pure functions from state to state paired with
  the externally observable actions (local event emissions, stream
  writes, calls into the base class), in the order they are performed.
* Asynchronous awaits are modelled sequentially: each listener runs to
  completion on each delivered event, in registration order.
-/

/-- Event kinds of the wire stream (grpcPuppet.EventType). -/
inductive EventType
  | unspecified
  | heartbeat
  | message
  | dong
  | error
  | friendship
  | login
  | logout
  | dirty
  | post
  | postComment
  | postTap
  | ready
  | roomInvite
  | roomJoin
  | roomLeave
  | roomTopic
  | roomAnnounce
  | scan
  | tag
  | tagGroup
  | reset
  | verifyCode
  deriving DecidableEq

/-- The EventTypeRev name table (numeric event type to its protobuf name). -/
def eventTypeName : EventType → String
  | .unspecified => "EVENT_TYPE_UNSPECIFIED"
  | .heartbeat => "EVENT_TYPE_HEARTBEAT"
  | .message => "EVENT_TYPE_MESSAGE"
  | .dong => "EVENT_TYPE_DONG"
  | .error => "EVENT_TYPE_ERROR"
  | .friendship => "EVENT_TYPE_FRIENDSHIP"
  | .login => "EVENT_TYPE_LOGIN"
  | .logout => "EVENT_TYPE_LOGOUT"
  | .dirty => "EVENT_TYPE_DIRTY"
  | .post => "EVENT_TYPE_POST"
  | .postComment => "EVENT_TYPE_POST_COMMENT"
  | .postTap => "EVENT_TYPE_POST_TAP"
  | .ready => "EVENT_TYPE_READY"
  | .roomInvite => "EVENT_TYPE_ROOM_INVITE"
  | .roomJoin => "EVENT_TYPE_ROOM_JOIN"
  | .roomLeave => "EVENT_TYPE_ROOM_LEAVE"
  | .roomTopic => "EVENT_TYPE_ROOM_TOPIC"
  | .roomAnnounce => "EVENT_TYPE_ROOM_ANNOUNCE"
  | .scan => "EVENT_TYPE_SCAN"
  | .tag => "EVENT_TYPE_TAG"
  | .tagGroup => "EVENT_TYPE_TAG_GROUP"
  | .reset => "EVENT_TYPE_RESET"
  | .verifyCode => "EVENT_TYPE_VERIFY_CODE"

/-- The fields the core reads out of a JSON event payload after parsing:
contactId (login events) and data (heartbeat, ready, logout events). -/
structure EventPayload where
  contactId : String := ""
  data : String := ""
  deriving DecidableEq

/-- One event envelope of the stream (grpcPuppet.EventResponse):
getType(), getPayload() (parsed), getSeq().  A seq of 0 is the protobuf
default and is falsy in the JS guards, encoding an absent sequence. -/
structure EventResponse where
  type : EventType
  payload : EventPayload := {}
  seq : Nat := 0
  deriving DecidableEq

/-- The client-side miscellaneous payload store (the session watermark):
lastEventSeq, lastEventTimestamp, accountId under their string keys.
The store keeps strings; Number and toString round-trips are the identity. -/
structure MiscStore where
  lastEventSeq : Option Nat := none
  lastEventTimestamp : Option Nat := none
  accountId : Option String := none
  deriving DecidableEq

/-- The PuppetService session state the reconnect logic touches:
the transient waitingForLogin/waitingForReady flags, the
reconnectIndicator, the base-class login state (isLoggedIn,
currentUserId), the readyIndicator, whether _grpcManager exists,
the WECHATY_PUPPET_SERVICE_DISABLE_EVENT_CACHE env flag, the
constructor-computed timeoutMilliseconds, and the watermark store. -/
structure ClientState where
  waitingForLogin : Bool := false
  waitingForReady : Bool := false
  reconnecting : Bool := false
  isLoggedIn : Bool := false
  currentUserId : String := ""
  readyIndicatorValue : Bool := false
  hasGrpcManager : Bool := true
  disableEventCache : Bool := false
  timeoutMilliseconds : Nat := 120000
  store : MiscStore := {}
  deriving DecidableEq

/-- timeoutMilliseconds as computed in the PuppetService constructor:
(options.timeoutSeconds or 2) * 1000 * 60, where a missing or zero
timeoutSeconds is falsy and replaced by 2. -/
def timeoutMillisecondsOf (timeoutSeconds : Option Nat) : Nat :=
  (if timeoutSeconds.getD 0 = 0 then 2 else timeoutSeconds.getD 0) * 1000 * 60

/-- The data returned by getMiscellaneousStoreData. -/
structure MiscData where
  lastEventSeq : Option Nat
  lastEventTimestamp : Option Nat
  accountId : Option String
  deriving DecidableEq

/-- getMiscellaneousStoreData: returns empty data (accountId the empty
string) when the event cache is disabled; otherwise reads the store and
discards lastEventSeq when the last event is older than
timeoutMilliseconds (staleness guard). -/
def getMiscellaneousStoreData (now : Nat) (st : ClientState) : MiscData :=
  if st.disableEventCache then
    { lastEventSeq := none, lastEventTimestamp := none, accountId := some "" }
  else
    let lastEventTimestamp := st.store.lastEventTimestamp
    let lastEventSeq :=
      if now - lastEventTimestamp.getD 0 > st.timeoutMilliseconds then none
      else st.store.lastEventSeq
    { lastEventSeq := lastEventSeq
      lastEventTimestamp := lastEventTimestamp
      accountId := st.store.accountId }

/-- setMiscellaneousStoreData: no-op when the event cache is disabled;
otherwise writes each field that is provided (some) and keeps the rest. -/
def setMiscellaneousStoreData (st : ClientState)
    (lastEventSeq lastEventTimestamp : Option Nat) (accountId : Option String) :
    ClientState :=
  if st.disableEventCache then st
  else
    { st with store :=
      { lastEventSeq := match lastEventSeq with
          | some v => some v
          | none => st.store.lastEventSeq
        lastEventTimestamp := match lastEventTimestamp with
          | some v => some v
          | none => st.store.lastEventTimestamp
        accountId := match accountId with
          | some v => some v
          | none => st.store.accountId } }

/-- resetMiscellaneousStoreData: no-op when the event cache is disabled;
otherwise deletes all three watermark keys. -/
def resetMiscellaneousStoreData (st : ClientState) : ClientState :=
  if st.disableEventCache then st
  else { st with store := {} }

/-- JS truthiness of an optional string (undefined and the empty string
are falsy). -/
def strTruthy : Option String → Bool
  | none => false
  | some s => s ≠ ""

/-- Local events the PuppetService re-emits to the automation layer.
The login/logout/ready/heartbeat emissions carry the field the core
fills; all mechanically transcoded kinds (dong, message, scan, ...)
are kept as the emitted event name with the parsed payload. -/
inductive LocalEvent
  | heartbeat (data : String)
  | login (contactId : String)
  | logout (data : String)
  | ready (data : String)
  | other (name : String) (payload : EventPayload)
  deriving DecidableEq

/-- Modelled from the spec: the base Puppet class login (the external
wechaty-puppet collaborator, not part of src/) marks the session logged
in under contactId and surfaces a local login event to the automation
layer (spec section 2: events are re-emitted as local events; section 7:
automation observes a login after a full reset). -/
def basePuppetLogin (st : ClientState) (contactId : String) :
    ClientState × List LocalEvent :=
  ({ st with isLoggedIn := true, currentUserId := contactId },
   [LocalEvent.login contactId])

/-- Modelled from the spec: the base Puppet class logout (the external
wechaty-puppet collaborator, not part of src/) clears the login state and
surfaces a local logout event to the automation layer. -/
def basePuppetLogout (st : ClientState) (reason : String) :
    ClientState × List LocalEvent :=
  ({ st with isLoggedIn := false, currentUserId := "" },
   [LocalEvent.logout reason])

/-- The watermark update of onGrpcStreamEvent (puppet-service.ts lines
264 to 272): when the envelope carries a truthy seq and the event cache
is enabled, read the store (through the staleness guard) and overwrite
lastEventSeq and lastEventTimestamp when no watermark is present, the
incoming seq is greater, or the incoming seq equals 1. -/
def updateEventSeqStore (now : Nat) (st : ClientState) (seq : Nat) :
    ClientState :=
  if seq ≠ 0 && !st.disableEventCache then
    match (getMiscellaneousStoreData now st).lastEventSeq with
    | none => setMiscellaneousStoreData st (some seq) (some now) none
    | some last =>
      if seq > last || seq = 1 then
        setMiscellaneousStoreData st (some seq) (some now) none
      else st
  else st

/-- The switch body of onGrpcStreamEvent for one envelope, producing the
state after dispatch and the emissions of the dispatch itself. -/
def dispatchGrpcEvent (now : Nat) (st : ClientState) (event : EventResponse) :
    ClientState × List LocalEvent :=
  match event.type with
  | .dong => (st, [LocalEvent.other ("dong") event.payload])
  | .error => (st, [LocalEvent.other ("error") event.payload])
  | .heartbeat => (st, [LocalEvent.heartbeat event.payload.data])
  | .friendship => (st, [LocalEvent.other ("friendship") event.payload])
  | .login =>
    if st.waitingForLogin && st.isLoggedIn then
      (st, [])
    else
      let st :=
        if !st.disableEventCache then
          if (getMiscellaneousStoreData now st).accountId
              ≠ some event.payload.contactId then
            setMiscellaneousStoreData (resetMiscellaneousStoreData st)
              none none (some event.payload.contactId)
          else st
        else st
      basePuppetLogin st event.payload.contactId
  | .logout =>
    let st :=
      if !st.disableEventCache then resetMiscellaneousStoreData st else st
    basePuppetLogout st event.payload.data
  | .dirty => (st, [LocalEvent.other ("dirty") event.payload])
  | .message => (st, [LocalEvent.other ("message") event.payload])
  | .post => (st, [LocalEvent.other ("post") event.payload])
  | .postComment => (st, [LocalEvent.other ("post-comment") event.payload])
  | .postTap => (st, [LocalEvent.other ("post-tap") event.payload])
  | .ready =>
    if st.waitingForReady && st.readyIndicatorValue then
      (st, [])
    else
      (st, [LocalEvent.ready event.payload.data])
  | .roomInvite => (st, [LocalEvent.other ("room-invite") event.payload])
  | .roomJoin => (st, [LocalEvent.other ("room-join") event.payload])
  | .roomLeave => (st, [LocalEvent.other ("room-leave") event.payload])
  | .roomTopic => (st, [LocalEvent.other ("room-topic") event.payload])
  | .roomAnnounce => (st, [LocalEvent.other ("room-announce") event.payload])
  | .scan => (st, [LocalEvent.other ("scan") event.payload])
  | .tag => (st, [LocalEvent.other ("tag") event.payload])
  | .tagGroup => (st, [LocalEvent.other ("tag-group") event.payload])
  | .reset => (st, [])
  | .verifyCode => (st, [LocalEvent.other ("verify-code") event.payload])
  | .unspecified => (st, [])

/-- onGrpcStreamEvent: emit the synthetic local heartbeat for every
non-heartbeat envelope, update the sequence watermark, then dispatch the
envelope through the type switch.  Returns the new session state and the
local emissions in order. -/
def onGrpcStreamEvent (now : Nat) (st : ClientState) (event : EventResponse) :
    ClientState × List LocalEvent :=
  let syntheticHeartbeat : List LocalEvent :=
    if event.type ≠ EventType.heartbeat then
      [LocalEvent.heartbeat
        ("onGrpcStreamEvent(" ++ eventTypeName event.type ++ ")")]
    else []
  let st1 := updateEventSeqStore now st event.seq
  ((dispatchGrpcEvent now st1 event).1,
   syntheticHeartbeat ++ (dispatchGrpcEvent now st1 event).2)

/-- Observable side effects of the reset() routine: delegating to the
generic full reset of the base class (super.reset()), stopping the event
subscription, one startStream attempt guarded by a timeout, and one
sleep between attempts.  Durations are in milliseconds. -/
inductive ResetAction
  | superReset
  | stopStream
  | startStreamAttempt (timeoutMs : Nat)
  | sleep (ms : Nat)
  deriving DecidableEq

/-- The entry guards of PuppetService.reset() (puppet-service.ts lines
3075 to 3093), in source order: no grpc manager or not logged in
delegates to the full reset; an already-set reconnectIndicator returns
immediately; otherwise the indicator is set and the event subscription
stopped before the fast path proceeds.  Returns the new state, the
actions performed, and whether the fast path proceeds. -/
def resetEntry (st : ClientState) : ClientState × List ResetAction × Bool :=
  if !st.hasGrpcManager then
    (st, [ResetAction.superReset], false)
  else if !st.isLoggedIn then
    (st, [ResetAction.superReset], false)
  else if st.reconnecting then
    (st, [], false)
  else
    ({ st with reconnecting := true }, [ResetAction.stopStream], true)

/-- The retry budget of the stream re-establishment loop
(puppet-service.ts line 3134): one tenth of timeoutMilliseconds. -/
def resetRetryBudget (timeoutMilliseconds : Nat) : Nat :=
  timeoutMilliseconds / 10

/-- One iteration of the stream re-establishment loop, as observed from
outside: whether the awaited startStream call (under its 30 second
timeout) succeeded, and the value of Date.now() at the catch site. -/
structure StreamAttempt where
  succeeds : Bool
  nowAfter : Nat
  deriving DecidableEq

/-- The stream re-establishment loop of reset() (puppet-service.ts lines
3133 to 3151) over a finite prefix of loop iterations: each iteration
performs a startStream attempt under a 30000 ms timeout; on failure with
elapsed time still below the budget it sleeps 5000 ms and retries; on
failure past the budget it clears the reconnectIndicator and delegates
to the full reset.  Returns the state, the actions in order, and some
true when the stream restarted, some false when the loop aborted to the
full reset, none when the given iterations are exhausted with the loop
still running. -/
def streamRetryLoop (budgetMs startTime : Nat) (st : ClientState) :
    List StreamAttempt → ClientState × List ResetAction × Option Bool
  | [] => (st, [], none)
  | a :: rest =>
    if a.succeeds then
      (st, [ResetAction.startStreamAttempt 30000], some true)
    else if a.nowAfter - startTime < budgetMs then
      ((streamRetryLoop budgetMs startTime st rest).1,
       ResetAction.startStreamAttempt 30000 :: ResetAction.sleep 5000 ::
         (streamRetryLoop budgetMs startTime st rest).2.1,
       (streamRetryLoop budgetMs startTime st rest).2.2)
    else
      ({ st with reconnecting := false },
       [ResetAction.startStreamAttempt 30000, ResetAction.superReset],
       some false)

/-- Outcome of the transient onLogin listener of reset() for one
delivered data event: ignored, resolving the login future, or the
mismatched-account throw. -/
inductive OnLoginOutcome
  | ignored
  | resolvedLogin
  | mismatchThrow
  deriving DecidableEq

/-- The transient onLogin data listener built by onLoginResolve
(puppet-service.ts lines 3096 to 3110), closed over the accountId read
from the watermark store when reset() began: armed only while
waitingForLogin is set and the event is a login; it clears
waitingForLogin, throws when a truthy stored accountId differs from the
contactId of the login payload, and otherwise resolves the login
future. -/
def onLoginHandler (accountId : Option String) (st : ClientState)
    (event : EventResponse) : ClientState × OnLoginOutcome :=
  if st.waitingForLogin && event.type = EventType.login then
    let st := { st with waitingForLogin := false }
    if strTruthy accountId && event.payload.contactId ≠ accountId.getD "" then
      (st, OnLoginOutcome.mismatchThrow)
    else
      (st, OnLoginOutcome.resolvedLogin)
  else
    (st, OnLoginOutcome.ignored)

/-- The transient onReady data listener built by onReadyResolve
(puppet-service.ts lines 3111 to 3120): armed only while
waitingForReady is set and the event is a ready; it clears
waitingForReady and resolves the ready future (the returned Bool). -/
def onReadyHandler (st : ClientState) (event : EventResponse) :
    ClientState × Bool :=
  if st.waitingForReady && event.type = EventType.ready then
    ({ st with waitingForReady := false }, true)
  else
    (st, false)

/-- Folds the transient onLogin listener over the events delivered on
the re-established stream before the login timeout fires.  Returns the
state and whether the login future was resolved; a resolution ends the
wait (the promise is latched). -/
def runLoginPhase (accountId : Option String) (st : ClientState) :
    List EventResponse → ClientState × Bool
  | [] => (st, false)
  | e :: rest =>
    let (st', out) := onLoginHandler accountId st e
    match out with
    | OnLoginOutcome.resolvedLogin => (st', true)
    | _ => runLoginPhase accountId st' rest

/-- Outcome of reset() after the stream restarted: the fast path
completed, or the routine fell back to the full reset. -/
inductive ResetOutcome
  | fastPath
  | fullReset
  deriving DecidableEq

/-- The login wait of reset() (puppet-service.ts lines 3156 to 3166):
awaits the login future under ResetLoginTimeout, with the finally block
clearing waitingForLogin and the reconnectIndicator and detaching the
listener; a timeout (the future unresolved by the events delivered in
time) is caught and delegates to the full reset.  The events argument is
the finite list of data events delivered before the timeout fires. -/
def resetLoginWait (accountId : Option String) (st : ClientState)
    (events : List EventResponse) : ClientState × ResetOutcome :=
  let (st', resolved) := runLoginPhase accountId st events
  let st' := { st' with waitingForLogin := false, reconnecting := false }
  if resolved then (st', ResetOutcome.fastPath)
  else (st', ResetOutcome.fullReset)

/-- Delivery of one data event during an in-flight reconnect: the grpc
manager fires its data listeners in registration order, the
onGrpcStreamEvent bridge first, then the transient onLogin and onReady
listeners of reset(). -/
def deliverDuringReconnect (now : Nat) (accountId : Option String)
    (st : ClientState) (event : EventResponse) :
    ClientState × List LocalEvent × OnLoginOutcome × Bool :=
  let stA := (onGrpcStreamEvent now st event).1
  let stB := (onLoginHandler accountId stA event).1
  ((onReadyHandler stB event).1,
   (onGrpcStreamEvent now st event).2,
   (onLoginHandler accountId stA event).2,
   (onReadyHandler stB event).2)

/-- The successful fast-path tail of reset() after the retry loop broke:
waitingForLogin and waitingForReady are set, the login event is
delivered and awaited (its finally clearing waitingForLogin and the
reconnectIndicator), then the ready event is delivered and awaited (its
finally clearing waitingForReady).  Returns the final state, all local
emissions, and whether both futures resolved. -/
def fastPathReconnect (now : Nat) (accountId : Option String)
    (st : ClientState) (loginEvt readyEvt : EventResponse) :
    ClientState × List LocalEvent × Bool :=
  let st0 := { st with waitingForLogin := true, waitingForReady := true }
  let st1 := (deliverDuringReconnect now accountId st0 loginEvt).1
  let st2 := { st1 with waitingForLogin := false, reconnecting := false }
  let st3 := (deliverDuringReconnect now accountId st2 readyEvt).1
  let st4 := { st3 with waitingForReady := false }
  (st4,
   (deliverDuringReconnect now accountId st0 loginEvt).2.1 ++
     (deliverDuringReconnect now accountId st2 readyEvt).2.1,
   (match (deliverDuringReconnect now accountId st0 loginEvt).2.2.1 with
    | OnLoginOutcome.resolvedLogin =>
      (deliverDuringReconnect now accountId st2 readyEvt).2.2.2
    | _ => false))

/-- A local event is a login, logout or ready emission (the kinds a
transparent fast-path reconnect must not surface). -/
def isLoginLogoutOrReady : LocalEvent → Bool
  | LocalEvent.login _ => true
  | LocalEvent.logout _ => true
  | LocalEvent.ready _ => true
  | _ => false

/-- The puppet event names iterated by
connectPuppetEventToStreamingCall (the keys of PUPPET_EVENT_DICT). -/
def puppetEventNameList : List String :=
  ["dong", "dirty", "error", "heartbeat", "friendship", "login", "logout",
   "message", "post", "post-comment", "post-tap", "ready", "room-invite",
   "room-join", "room-leave", "room-topic", "room-announce", "scan", "tag",
   "tag-group", "verify-code", "reset"]

/-- State of the server-side EventStreamManager: the attached stream
handle (by id), the puppetListening flag, and the stack of registered
off callbacks (identified by the puppet event name each unregisters; the
head of the list is the top of the JS array the source pushes to and
pops from). -/
structure EsmState where
  eventStream : Option Nat := none
  puppetListening : Bool := false
  offCallbackList : List String := []
  deriving DecidableEq

/-- removePuppetListeners (event-stream-manager.ts lines 420 to 425):
pops every off callback and invokes it.  Returns the state with the
list drained and the invoked callbacks in invocation order. -/
def removePuppetListeners (st : EsmState) : EsmState × List String :=
  ({ st with offCallbackList := [] }, st.offCallbackList)

/-- connectPuppetEventToStreamingCall (event-stream-manager.ts lines 159
to 329): registers one puppet listener per event kind except reset
(whose case only breaks), pushing the matching off callback for each,
and sets puppetListening. -/
def connectPuppetEventToStreamingCall (st : EsmState) : EsmState :=
  { st with
    offCallbackList :=
      (puppetEventNameList.filter (fun n => n ≠ "reset")).reverse
        ++ st.offCallbackList
    puppetListening := true }

/-- A write performed on the server stream: a synchronous envelope write,
or one scheduled by setTimeout after a delay.  The payload is reduced to
the field the source fills (data or contactId). -/
inductive EmitAction
  | write (t : EventType) (payloadData : String)
  | delayedWrite (delayMs : Nat) (t : EventType) (payloadData : String)
  deriving DecidableEq

/-- grpcEmit (event-stream-manager.ts lines 125 to 157): writes the
envelope when a stream is attached and drops it (with a warning, no
queue) otherwise. -/
def grpcEmit (st : EsmState) (t : EventType) (payloadData : String) :
    List EmitAction :=
  if st.eventStream.isSome then [EmitAction.write t payloadData] else []

/-- The queries of the server-side puppet that EventStreamManager.start
reads: isLoggedIn, currentUserId and the readyIndicator. -/
structure ServerPuppet where
  isLoggedIn : Bool := false
  currentUserId : String := ""
  readyIndicatorValue : Bool := false
  deriving DecidableEq

/-- EventStreamManager.start (event-stream-manager.ts lines 49 to 111):
throws when a stream is already attached; otherwise clears stale
listeners, attaches the handle, registers the puppet listeners and the
teardown handlers, writes the synthetic connect-success heartbeat, then
a login envelope when the puppet is logged in, and schedules a ready
envelope after a 15 second delay when the puppet is ready. -/
def esmStart (p : ServerPuppet) (handle : Nat) (st : EsmState) :
    Except String (EsmState × List EmitAction) :=
  if st.eventStream.isSome then
    Except.error ("can not set twice")
  else
    let (st, _) := removePuppetListeners st
    let st := { st with eventStream := some handle }
    let st := connectPuppetEventToStreamingCall st
    let acts := grpcEmit st EventType.heartbeat
      ("Wechaty Puppet gRPC stream connect successfully")
    let acts := acts ++
      (if p.isLoggedIn then grpcEmit st EventType.login p.currentUserId
       else [])
    let acts := acts ++
      (if p.readyIndicatorValue then
        [EmitAction.delayedWrite 15000 EventType.ready ("ready")]
       else [])
    Except.ok (st, acts)

/-- EventStreamManager.stop (event-stream-manager.ts lines 113 to 123):
throws when nothing is attached; otherwise unregisters every puppet
listener, ends the attached stream, and clears the handle.  Returns the
new state, the invoked off callbacks, and the handle that was ended. -/
def esmStop (st : EsmState) : Except String (EsmState × List String × Nat) :=
  match st.eventStream with
  | none => Except.error ("no this.eventStream")
  | some h =>
    let (st, ran) := removePuppetListeners st
    Except.ok ({ st with eventStream := none }, ran, h)

/-- The five teardown signals the stream handle can fire. -/
inductive TeardownSignal
  | cancelled
  | errorEv
  | finish
  | endEv
  | close
  deriving DecidableEq

/-- The teardown handler registered by onStreamingCallEnd
(event-stream-manager.ts lines 335 to 418) for each of the five
signals; the five registered bodies are identical and do not read the
signal: when puppetListening is set the off callbacks are drained and
invoked, and the handle is cleared when still present (otherwise only a
warning is logged).  Returns the state and the invoked callbacks. -/
def onTeardownSignal (sig : TeardownSignal) (st : EsmState) :
    EsmState × List String :=
  let _ := sig
  let (st, ran) :=
    if st.puppetListening then removePuppetListeners st else (st, [])
  let st :=
    if st.eventStream.isSome then { st with eventStream := none } else st
  (st, ran)

/-- Delivery of a sequence of teardown signals, accumulating the invoked
off callbacks. -/
def runTeardownSignals (st : EsmState) :
    List TeardownSignal → EsmState × List String
  | [] => (st, [])
  | s :: rest =>
    let (st1, r1) := onTeardownSignal s st
    let (st2, r2) := runTeardownSignals st1 rest
    (st2, r1 ++ r2)

/-- Result of the server event() gRPC handler for a new streaming call:
the conflict error emitted on the new call, normal completion, or a
propagated exception. -/
inductive EventCallResult
  | conflictError (grpcStatus : String)
  | started
  | thrown (message : String)
  deriving DecidableEq

/-- The event() handler of the service implementation (grpc-error.ts
lines 551 to 584): when the manager is busy it emits an ALREADY_EXISTS
service error on the new streaming call and returns without touching the
manager; otherwise it starts the manager on the new call and, when a
scanPayload is pending, emits it to the fresh stream. -/
def eventImpl (p : ServerPuppet) (scanPayload : Option String)
    (handle : Nat) (st : EsmState) :
    EsmState × EventCallResult × List EmitAction :=
  if st.eventStream.isSome then
    (st, EventCallResult.conflictError ("ALREADY_EXISTS"), [])
  else
    match esmStart p handle st with
    | Except.ok (st', acts) =>
      let scanActs :=
        match scanPayload with
        | some s => grpcEmit st' EventType.scan s
        | none => []
      (st', EventCallResult.started, acts ++ scanActs)
    | Except.error e => (st, EventCallResult.thrown e, [])

/-- A local event is a heartbeat emission. -/
def isHeartbeatEmission : LocalEvent → Bool
  | LocalEvent.heartbeat _ => true
  | _ => false

theorem setMiscellaneousStoreData_store_only (st : ClientState)
    (a b : Option Nat) (c : Option String) :
    ∃ s, setMiscellaneousStoreData st a b c = { st with store := s } := by
  unfold setMiscellaneousStoreData
  split
  · exact ⟨st.store, rfl⟩
  · exact ⟨_, rfl⟩

theorem resetMiscellaneousStoreData_store_only (st : ClientState) :
    ∃ s, resetMiscellaneousStoreData st = { st with store := s } := by
  unfold resetMiscellaneousStoreData
  split
  · exact ⟨st.store, rfl⟩
  · exact ⟨_, rfl⟩

theorem updateEventSeqStore_store_only (now : Nat) (st : ClientState)
    (seq : Nat) :
    ∃ s, updateEventSeqStore now st seq = { st with store := s } := by
  unfold updateEventSeqStore
  split
  · split
    · exact setMiscellaneousStoreData_store_only st _ _ _
    · split
      · exact setMiscellaneousStoreData_store_only st _ _ _
      · exact ⟨st.store, rfl⟩
  · exact ⟨st.store, rfl⟩

/-- C1: calling reset() while the reconnectIndicator is already set is a
no-op only behind the earlier guards: when the grpc manager is gone (or
the session is logged out) reset() performs the full reset even though a
reconnect is marked in flight.  Concretely, with no grpc manager and the
reconnecting indicator set, reset() delegates to super.reset(), which is
a side effect, refuting the unconditional claim. -/
theorem c1_reset_counterexample :
    ({ reconnecting := true, hasGrpcManager := false, isLoggedIn := true } :
      ClientState).reconnecting = true ∧
    resetEntry
      { reconnecting := true, hasGrpcManager := false, isLoggedIn := true } =
      ({ reconnecting := true, hasGrpcManager := false, isLoggedIn := true },
        [ResetAction.superReset], false) ∧
    [ResetAction.superReset] ≠ ([] : List ResetAction) := by
  refine ⟨rfl, rfl, by decide⟩

/-- C1 (amended): when a grpc manager exists and the session is logged
in, a reset() invocation that finds the reconnecting indicator set
returns immediately: the state (waitingForLogin, waitingForReady, the
watermark store) is unchanged, no action is performed (no stream stop,
no second subscription, no full reset), and the fast path does not
proceed, so at most one reconnect attempt runs at a time. -/
theorem c1_reset_mutual_exclusion (st : ClientState)
    (hMgr : st.hasGrpcManager = true) (hLogged : st.isLoggedIn = true)
    (hRec : st.reconnecting = true) :
    resetEntry st = (st, [], false) := by
  unfold resetEntry
  rw [hMgr, hLogged, hRec]
  rfl

/-- C1 witness: the amended theorem at a concrete in-flight state. -/
theorem c1_reset_mutual_exclusion_witness :
    resetEntry { reconnecting := true, hasGrpcManager := true,
                 isLoggedIn := true } =
      ({ reconnecting := true, hasGrpcManager := true, isLoggedIn := true },
        [], false) :=
  c1_reset_mutual_exclusion _ rfl rfl rfl

/-- C5: attaching a second event stream while one is attached always
fails with the distinguishable conflict: EventStreamManager.start throws
(can not set twice), and the event() handler answers the new call with
the ALREADY_EXISTS service error while leaving the manager state, and
hence the first attached handle, untouched. -/
theorem c5_second_attach_conflict (p : ServerPuppet)
    (scanPayload : Option String) (st : EsmState) (h newHandle : Nat)
    (hBusy : st.eventStream = some h) :
    esmStart p newHandle st = Except.error ("can not set twice") ∧
    eventImpl p scanPayload newHandle st =
      (st, EventCallResult.conflictError ("ALREADY_EXISTS"), []) ∧
    (eventImpl p scanPayload newHandle st).1.eventStream = some h := by
  refine ⟨?_, ?_, ?_⟩ <;> simp [esmStart, eventImpl, hBusy]

/-- C5 witness: the conflict at a concrete busy state. -/
theorem c5_second_attach_conflict_witness :
    esmStart { } 7 { eventStream := some 3 } =
      Except.error ("can not set twice") ∧
    eventImpl { } none 7 { eventStream := some 3 } =
      ({ eventStream := some 3 },
        EventCallResult.conflictError ("ALREADY_EXISTS"), []) ∧
    (eventImpl { } none 7 { eventStream := some 3 }).1.eventStream =
      some 3 :=
  c5_second_attach_conflict { } none { eventStream := some 3 } 3 7 rfl

/-- C8: EventStreamManager.stop with a handle attached unregisters every
puppet listener, ends the attached stream and clears the handle; with
nothing attached (including a second call after a completed teardown) it
fails with exactly the distinguishable NotAttached error
(no this.eventStream) and touches nothing, so stopping is safe to invoke
at any time. -/
theorem c8_stop_idempotent (st : EsmState) (h : Nat)
    (hAtt : st.eventStream = some h) :
    esmStop st =
      Except.ok ({ st with eventStream := none, offCallbackList := [] },
        st.offCallbackList, h) ∧
    esmStop { st with eventStream := none, offCallbackList := [] } =
      Except.error ("no this.eventStream") ∧
    (∀ st2 : EsmState, st2.eventStream = none →
      esmStop st2 = Except.error ("no this.eventStream")) := by
  refine ⟨?_, rfl, ?_⟩
  · unfold esmStop
    rw [hAtt]
    rfl
  · intro st2 h2
    unfold esmStop
    rw [h2]


/-- C8 witness: stop at a concrete attached state, and the NotAttached
error on the second call. -/
theorem c8_stop_idempotent_witness :
    esmStop { eventStream := some 4, puppetListening := true,
              offCallbackList := ["dong", "login"] } =
      Except.ok ({ eventStream := none, puppetListening := true,
                   offCallbackList := [] }, ["dong", "login"], 4) ∧
    esmStop { eventStream := none, puppetListening := true,
              offCallbackList := [] } =
      Except.error ("no this.eventStream") := by
  have h := c8_stop_idempotent
    { eventStream := some 4, puppetListening := true,
      offCallbackList := ["dong", "login"] } 4 rfl
  exact ⟨h.1, h.2.1⟩

theorem runLoginPhase_not_waiting (acc : Option String) (st : ClientState)
    (evs : List EventResponse) (h : st.waitingForLogin = false) :
    runLoginPhase acc st evs = (st, false) := by
  induction evs with
  | nil => rfl
  | cons e rest ih =>
    simp [runLoginPhase, onLoginHandler, h, ih]

theorem runLoginPhase_append_nonlogin (acc : Option String)
    (st : ClientState) (pre rest : List EventResponse)
    (h : ∀ x ∈ pre, x.type ≠ EventType.login) :
    runLoginPhase acc st (pre ++ rest) = runLoginPhase acc st rest := by
  induction pre with
  | nil => rfl
  | cons e p ih =>
    have he : e.type ≠ EventType.login := h e (List.mem_cons_self e p)
    simp only [List.cons_append, runLoginPhase, onLoginHandler]
    rw [if_neg (by simp [he])]
    exact ih (fun x hx => h x (List.mem_cons_of_mem e hx))

/-- C2: when the first login event observed on the re-established stream
carries a contactId different from the non-empty accountId of the
persisted watermark, the transient onLogin listener throws instead of
resolving the login future (and disarms itself), so the login wait of
reset() times out and falls back to the full reset: the fast path never
completes with the mismatched identity. -/
theorem c2_account_mismatch_full_reset (a : String) (st : ClientState)
    (pre post : List EventResponse) (e : EventResponse)
    (hWait : st.waitingForLogin = true)
    (hPre : ∀ x ∈ pre, x.type ≠ EventType.login)
    (hType : e.type = EventType.login)
    (hTruthy : a ≠ "")
    (hMism : e.payload.contactId ≠ a) :
    (resetLoginWait (some a) st (pre ++ e :: post)).2 =
      ResetOutcome.fullReset := by
  unfold resetLoginWait
  rw [runLoginPhase_append_nonlogin _ _ _ _ hPre]
  have h1 : onLoginHandler (some a) st e =
      ({ st with waitingForLogin := false }, OnLoginOutcome.mismatchThrow) := by
    unfold onLoginHandler
    rw [hWait, hType]
    simp [strTruthy, hTruthy, hMism]
  have h2 : runLoginPhase (some a) st (e :: post) =
      ({ st with waitingForLogin := false }, false) := by
    unfold runLoginPhase
    rw [h1]
    exact runLoginPhase_not_waiting _ _ _ rfl
  rw [h2]
  rfl

/-- C2 witness: the mismatch at a concrete reconnect state. -/
theorem c2_account_mismatch_full_reset_witness :
    (resetLoginWait (some ("A1"))
      { waitingForLogin := true, isLoggedIn := true }
      ([] ++ { type := EventType.login,
               payload := { contactId := "A2" } } :: [])).2 =
      ResetOutcome.fullReset :=
  c2_account_mismatch_full_reset "A1"
    { waitingForLogin := true, isLoggedIn := true } [] []
    { type := EventType.login, payload := { contactId := "A2" } }
    rfl (by simp) rfl (by decide) (by decide)

theorem runTeardownSignals_cleared (pl : Bool)
    (sigs : List TeardownSignal) :
    runTeardownSignals ⟨none, pl, []⟩ sigs = (⟨none, pl, []⟩, []) := by
  induction sigs with
  | nil => rfl
  | cons s rest ih =>
    cases pl <;>
      simp [runTeardownSignals, onTeardownSignal, removePuppetListeners, ih]

/-- C7: any nonempty sequence of teardown signals (cancelled, error,
finish, end, close), in any order and multiplicity, delivered to an
attached stream handle clears the handle and runs each registered off
callback exactly once (the full registered list, in invocation order);
the handler of every later signal finds nothing left to clean up and
performs no state change. -/
theorem c7_teardown_exactly_once (st : EsmState) (h : Nat)
    (sigs : List TeardownSignal)
    (hAtt : st.eventStream = some h)
    (hListen : st.puppetListening = true)
    (hNe : sigs ≠ []) :
    runTeardownSignals st sigs =
      ({ st with eventStream := none, offCallbackList := [] },
        st.offCallbackList) ∧
    (∀ sig,
      onTeardownSignal sig
          { st with eventStream := none, offCallbackList := [] } =
        ({ st with eventStream := none, offCallbackList := [] }, [])) := by
  obtain ⟨es, pl, ol⟩ := st
  obtain rfl : es = some h := hAtt
  obtain rfl : pl = true := hListen
  constructor
  · cases sigs with
    | nil => exact absurd rfl hNe
    | cons s rest =>
      have hFirst : onTeardownSignal s ⟨some h, true, ol⟩ =
          (⟨none, true, []⟩, ol) := by
        simp [onTeardownSignal, removePuppetListeners]
      simp [runTeardownSignals, hFirst, runTeardownSignals_cleared]
  · intro sig
    simp [onTeardownSignal, removePuppetListeners]

/-- C7 witness: three racing signals at a concrete attached state. -/
theorem c7_teardown_exactly_once_witness :
    runTeardownSignals
        ⟨some 2, true, ["dong", "login", "logout"]⟩
        [TeardownSignal.finish, TeardownSignal.close,
         TeardownSignal.cancelled] =
      (⟨none, true, []⟩, ["dong", "login", "logout"]) ∧
    (∀ sig, onTeardownSignal sig ⟨none, true, []⟩ =
      (⟨none, true, []⟩, [])) :=
  c7_teardown_exactly_once ⟨some 2, true, ["dong", "login", "logout"]⟩ 2
    [TeardownSignal.finish, TeardownSignal.close, TeardownSignal.cancelled]
    rfl rfl (by simp)

/-- C6: a successful attach writes the synthetic connect-success
heartbeat to the stream before any other envelope: the heartbeat is the
first synchronous write; when the puppet is already logged in the
connection starts with exactly [heartbeat, login(currentUserId)]; no
ready envelope is ever written synchronously during start, and every
write start schedules with a delay is the ready envelope after 15
seconds. -/
theorem c6_heartbeat_before_all (p : ServerPuppet) (handle : Nat)
    (st : EsmState) (hFree : st.eventStream = none) :
    ∃ st2 acts, esmStart p handle st = Except.ok (st2, acts) ∧
      acts.head? = some (EmitAction.write EventType.heartbeat
        ("Wechaty Puppet gRPC stream connect successfully")) ∧
      (p.isLoggedIn = true →
        acts.take 2 =
          [EmitAction.write EventType.heartbeat
            ("Wechaty Puppet gRPC stream connect successfully"),
           EmitAction.write EventType.login p.currentUserId]) ∧
      (∀ s, EmitAction.write EventType.ready s ∉ acts) ∧
      (∀ d t s, EmitAction.delayedWrite d t s ∈ acts →
        t = EventType.ready ∧ d = 15000) := by
  obtain ⟨es, pl, ol⟩ := st
  obtain rfl : es = none := hFree
  obtain ⟨bl, uid, br⟩ := p
  cases bl <;> cases br <;>
    refine ⟨_, _, rfl, rfl, ?_, ?_, ?_⟩ <;>
      simp [esmStart, grpcEmit, connectPuppetEventToStreamingCall,
        removePuppetListeners] <;>
      exact fun d t s hd ht _ => ⟨ht, hd⟩

/-- C6 witness: attach at a concrete logged-in, ready puppet. -/
theorem c6_heartbeat_before_all_witness :
    ∃ st2 acts,
      esmStart { isLoggedIn := true, currentUserId := "A1",
                 readyIndicatorValue := true } 1 { } =
        Except.ok (st2, acts) ∧
      acts.head? = some (EmitAction.write EventType.heartbeat
        ("Wechaty Puppet gRPC stream connect successfully")) ∧
      (({ isLoggedIn := true, currentUserId := "A1",
          readyIndicatorValue := true } : ServerPuppet).isLoggedIn = true →
        acts.take 2 =
          [EmitAction.write EventType.heartbeat
            ("Wechaty Puppet gRPC stream connect successfully"),
           EmitAction.write EventType.login
             ({ isLoggedIn := true, currentUserId := "A1",
                readyIndicatorValue := true } : ServerPuppet).currentUserId]) ∧
      (∀ s, EmitAction.write EventType.ready s ∉ acts) ∧
      (∀ d t s, EmitAction.delayedWrite d t s ∈ acts →
        t = EventType.ready ∧ d = 15000) :=
  c6_heartbeat_before_all
    { isLoggedIn := true, currentUserId := "A1",
      readyIndicatorValue := true } 1 { } rfl

theorem streamRetryLoop_cons_succeed (budget startTime : Nat)
    (st : ClientState) (a : StreamAttempt) (rest : List StreamAttempt)
    (hs : a.succeeds = true) :
    streamRetryLoop budget startTime st (a :: rest) =
      (st, [ResetAction.startStreamAttempt 30000], some true) := by
  simp only [streamRetryLoop]
  rw [hs]
  rfl

theorem streamRetryLoop_cons_retry (budget startTime : Nat)
    (st : ClientState) (a : StreamAttempt) (rest : List StreamAttempt)
    (hs : a.succeeds = false) (hb : a.nowAfter - startTime < budget) :
    streamRetryLoop budget startTime st (a :: rest) =
      ((streamRetryLoop budget startTime st rest).1,
       ResetAction.startStreamAttempt 30000 :: ResetAction.sleep 5000 ::
         (streamRetryLoop budget startTime st rest).2.1,
       (streamRetryLoop budget startTime st rest).2.2) := by
  simp only [streamRetryLoop]
  rw [hs]
  simp [hb]

theorem streamRetryLoop_cons_abort (budget startTime : Nat)
    (st : ClientState) (a : StreamAttempt) (rest : List StreamAttempt)
    (hs : a.succeeds = false) (hb : ¬ a.nowAfter - startTime < budget) :
    streamRetryLoop budget startTime st (a :: rest) =
      ({ st with reconnecting := false },
       [ResetAction.startStreamAttempt 30000, ResetAction.superReset],
       some false) := by
  simp only [streamRetryLoop]
  rw [hs]
  simp [hb]

theorem streamRetryLoop_attempt_timeout (budget startTime : Nat)
    (st : ClientState) (l : List StreamAttempt) (t : Nat)
    (ht : ResetAction.startStreamAttempt t ∈
      (streamRetryLoop budget startTime st l).2.1) : t = 30000 := by
  induction l with
  | nil => simp [streamRetryLoop] at ht
  | cons a rest ih =>
    by_cases hs : a.succeeds = true
    · rw [streamRetryLoop_cons_succeed budget startTime st a rest hs] at ht
      simp at ht
      exact ht
    · simp only [Bool.not_eq_true] at hs
      by_cases hb : a.nowAfter - startTime < budget
      · rw [streamRetryLoop_cons_retry budget startTime st a rest hs hb] at ht
        simp at ht
        rcases ht with ht | ht
        · exact ht
        · exact ih ht
      · rw [streamRetryLoop_cons_abort budget startTime st a rest hs hb] at ht
        simp at ht
        exact ht

theorem streamRetryLoop_sleep_duration (budget startTime : Nat)
    (st : ClientState) (l : List StreamAttempt) (m : Nat)
    (hm : ResetAction.sleep m ∈
      (streamRetryLoop budget startTime st l).2.1) : m = 5000 := by
  induction l with
  | nil => simp [streamRetryLoop] at hm
  | cons a rest ih =>
    by_cases hs : a.succeeds = true
    · rw [streamRetryLoop_cons_succeed budget startTime st a rest hs] at hm
      simp at hm
    · simp only [Bool.not_eq_true] at hs
      by_cases hb : a.nowAfter - startTime < budget
      · rw [streamRetryLoop_cons_retry budget startTime st a rest hs hb] at hm
        simp at hm
        rcases hm with hm | hm
        · exact hm
        · exact ih hm
      · rw [streamRetryLoop_cons_abort budget startTime st a rest hs hb] at hm
        simp at hm

theorem streamRetryLoop_sleep_before_retry (budget startTime : Nat)
    (st : ClientState) (l : List StreamAttempt) :
    List.Chain'
      (fun x y => y = ResetAction.startStreamAttempt 30000 →
        x = ResetAction.sleep 5000)
      (streamRetryLoop budget startTime st l).2.1 := by
  induction l with
  | nil => simp [streamRetryLoop]
  | cons a rest ih =>
    by_cases hs : a.succeeds = true
    · rw [streamRetryLoop_cons_succeed budget startTime st a rest hs]
      exact List.chain'_singleton _
    · simp only [Bool.not_eq_true] at hs
      by_cases hb : a.nowAfter - startTime < budget
      · rw [streamRetryLoop_cons_retry budget startTime st a rest hs hb]
        rw [List.chain'_cons]
        refine ⟨fun h => absurd h (by simp), ?_⟩
        rw [List.chain'_cons']
        exact ⟨fun b _ _ => rfl, ih⟩
      · rw [streamRetryLoop_cons_abort budget startTime st a rest hs hb]
        rw [List.chain'_cons]
        exact ⟨fun h => absurd h (by simp), List.chain'_singleton _⟩

theorem streamRetryLoop_abort (budget startTime : Nat)
    (st : ClientState) (l : List StreamAttempt)
    (hr : (streamRetryLoop budget startTime st l).2.2 = some false) :
    (streamRetryLoop budget startTime st l).1.reconnecting = false ∧
    ResetAction.superReset ∈ (streamRetryLoop budget startTime st l).2.1 ∧
    ∃ a ∈ l, a.succeeds = false ∧ budget ≤ a.nowAfter - startTime := by
  induction l with
  | nil => simp [streamRetryLoop] at hr
  | cons a rest ih =>
    by_cases hs : a.succeeds = true
    · rw [streamRetryLoop_cons_succeed budget startTime st a rest hs] at hr
      simp at hr
    · simp only [Bool.not_eq_true] at hs
      by_cases hb : a.nowAfter - startTime < budget
      · rw [streamRetryLoop_cons_retry budget startTime st a rest hs hb] at hr ⊢
        obtain ⟨h1, h2, aa, haa, hf, hbb⟩ := ih hr
        exact ⟨h1, by simp [h2],
          ⟨aa, List.mem_cons_of_mem a haa, hf, hbb⟩⟩
      · rw [streamRetryLoop_cons_abort budget startTime st a rest hs hb]
        refine ⟨rfl, by simp, ⟨a, List.mem_cons_self a rest, hs, ?_⟩⟩
        exact Nat.le_of_not_lt hb

theorem streamRetryLoop_within_budget_no_abort (budget startTime : Nat)
    (st : ClientState) (l : List StreamAttempt)
    (hAll : ∀ a ∈ l, a.succeeds = false →
      a.nowAfter - startTime < budget) :
    (streamRetryLoop budget startTime st l).2.2 ≠ some false := by
  intro hr
  obtain ⟨-, -, a, ha, hf, hbb⟩ := streamRetryLoop_abort _ _ _ _ hr
  exact absurd (hAll a ha hf) (Nat.not_lt.mpr hbb)

theorem streamRetryLoop_no_abort_no_side_effect (budget startTime : Nat)
    (st : ClientState) (l : List StreamAttempt)
    (hr : (streamRetryLoop budget startTime st l).2.2 ≠ some false) :
    (streamRetryLoop budget startTime st l).1 = st ∧
    ResetAction.superReset ∉ (streamRetryLoop budget startTime st l).2.1 := by
  induction l with
  | nil => simp [streamRetryLoop]
  | cons a rest ih =>
    by_cases hs : a.succeeds = true
    · rw [streamRetryLoop_cons_succeed budget startTime st a rest hs]
      simp
    · simp only [Bool.not_eq_true] at hs
      by_cases hb : a.nowAfter - startTime < budget
      · rw [streamRetryLoop_cons_retry budget startTime st a rest hs hb] at hr ⊢
        obtain ⟨h1, h2⟩ := ih hr
        simp [h1, h2]
      · rw [streamRetryLoop_cons_abort budget startTime st a rest hs hb] at hr
        exact absurd rfl hr

/-- C3 counterexample: for a default deployment (no timeoutSeconds
option) the configured overall timeout is 120000 ms (2 minutes), so the
retry budget (one tenth of it) is 12000 ms, i.e. 12 seconds, which is
not approximately 2 minutes (it is not even 100 seconds). -/
theorem c3_default_budget_counterexample :
    timeoutMillisecondsOf none = 120000 ∧
    resetRetryBudget (timeoutMillisecondsOf none) = 12000 ∧
    ¬ (100000 ≤ resetRetryBudget (timeoutMillisecondsOf none)) := by
  decide

/-- C3 (amended): in the stream re-establishment loop every startStream
attempt runs under a fixed 30000 ms timeout; every sleep between
attempts is 5000 ms and every retry attempt directly follows such a
sleep; the loop aborts (clearing the reconnecting flag and performing
the full reset) exactly when a failed attempt finds the elapsed time at
or past the budget of one tenth of the configured overall timeout
(12 seconds for default deployments, not two minutes), and while every
failure is within the budget the loop never aborts and performs no full
reset and no state change. -/
theorem c3_retry_loop_shape (budget startTime : Nat) (st : ClientState)
    (attempts : List StreamAttempt) :
    (∀ t, ResetAction.startStreamAttempt t ∈
      (streamRetryLoop budget startTime st attempts).2.1 → t = 30000) ∧
    (∀ m, ResetAction.sleep m ∈
      (streamRetryLoop budget startTime st attempts).2.1 → m = 5000) ∧
    List.Chain'
      (fun x y => y = ResetAction.startStreamAttempt 30000 →
        x = ResetAction.sleep 5000)
      (streamRetryLoop budget startTime st attempts).2.1 ∧
    ((streamRetryLoop budget startTime st attempts).2.2 = some false →
      (streamRetryLoop budget startTime st attempts).1.reconnecting = false ∧
      ResetAction.superReset ∈
        (streamRetryLoop budget startTime st attempts).2.1 ∧
      ∃ a ∈ attempts, a.succeeds = false ∧
        budget ≤ a.nowAfter - startTime) ∧
    ((∀ a ∈ attempts, a.succeeds = false →
        a.nowAfter - startTime < budget) →
      (streamRetryLoop budget startTime st attempts).2.2 ≠ some false) ∧
    ((streamRetryLoop budget startTime st attempts).2.2 ≠ some false →
      (streamRetryLoop budget startTime st attempts).1 = st ∧
      ResetAction.superReset ∉
        (streamRetryLoop budget startTime st attempts).2.1) ∧
    resetRetryBudget (timeoutMillisecondsOf none) = 12000 :=
  ⟨streamRetryLoop_attempt_timeout budget startTime st attempts,
   streamRetryLoop_sleep_duration budget startTime st attempts,
   streamRetryLoop_sleep_before_retry budget startTime st attempts,
   streamRetryLoop_abort budget startTime st attempts,
   streamRetryLoop_within_budget_no_abort budget startTime st attempts,
   streamRetryLoop_no_abort_no_side_effect budget startTime st attempts,
   by decide⟩

/-- C3 witness: a failed attempt past the default budget aborts to the
full reset with the reconnecting flag cleared. -/
theorem c3_retry_loop_shape_witness :
    (streamRetryLoop 12000 0 { } [⟨false, 13000⟩]).1.reconnecting = false ∧
    ResetAction.superReset ∈
      (streamRetryLoop 12000 0 { } [⟨false, 13000⟩]).2.1 ∧
    ∃ a ∈ [(⟨false, 13000⟩ : StreamAttempt)],
      a.succeeds = false ∧ 12000 ≤ a.nowAfter - 0 :=
  (c3_retry_loop_shape 12000 0 { } [⟨false, 13000⟩]).2.2.2.1 (by decide)

theorem dispatchGrpcEvent_state_id (now : Nat) (st : ClientState)
    (e : EventResponse) (h1 : e.type ≠ EventType.login)
    (h2 : e.type ≠ EventType.logout) :
    (dispatchGrpcEvent now st e).1 = st := by
  obtain ⟨ty, pl, sq⟩ := e
  cases ty <;>
    first
      | (exact absurd rfl h1)
      | (exact absurd rfl h2)
      | rfl
      | (simp only [dispatchGrpcEvent]; split <;> rfl)

/-- C9 counterexample: an envelope with sequence 1 overwrites a larger
persisted watermark (because of the seq equal 1 escape in the update
condition): with the stored lastEventSeq 5 and a fresh timestamp,
processing a message envelope with seq 1 regresses the watermark to 1,
refuting the claim that an incoming sequence less than or equal to the
watermark leaves it unchanged. -/
theorem c9_watermark_counterexample :
    (1 : Nat) ≤ 5 ∧
    (onGrpcStreamEvent 1000
      { store := { lastEventSeq := some 5, lastEventTimestamp := some 1000 } }
      { type := EventType.message, seq := 1 }).1.store.lastEventSeq =
      some 1 := by
  decide

/-- C9 (amended): the persisted watermark is overwritten only when no
watermark is present, the incoming sequence is strictly greater, or the
incoming sequence equals 1 (a stream restart escape); hence processing
any envelope whose sequence is at most the fresh stored watermark and
different from 1, of any kind other than the login/logout kinds that
explicitly reset the store, leaves the whole watermark store
unchanged. -/
theorem c9_watermark_no_regress (now : Nat) (st : ClientState)
    (e : EventResponse) (w ts : Nat)
    (hW : st.store.lastEventSeq = some w)
    (hTs : st.store.lastEventTimestamp = some ts)
    (hFresh : ¬ now - ts > st.timeoutMilliseconds)
    (hDis : st.disableEventCache = false)
    (hLe : e.seq ≤ w)
    (hNe1 : e.seq ≠ 1)
    (hNotLogin : e.type ≠ EventType.login)
    (hNotLogout : e.type ≠ EventType.logout) :
    (onGrpcStreamEvent now st e).1.store = st.store := by
  have hU : updateEventSeqStore now st e.seq = st := by
    unfold updateEventSeqStore
    rw [show (getMiscellaneousStoreData now st).lastEventSeq = some w from by
      simp [getMiscellaneousStoreData, hDis, hTs, hFresh, hW]]
    have hGt : ¬ e.seq > w := Nat.not_lt.mpr hLe
    simp [hGt, hNe1]
  have hD := dispatchGrpcEvent_state_id now st e hNotLogin hNotLogout
  simp [onGrpcStreamEvent, hU, hD]

/-- C9 witness: the amended theorem at a concrete state: seq 3 at
watermark 5 leaves the store unchanged. -/
theorem c9_watermark_no_regress_witness :
    (onGrpcStreamEvent 1000
      { store := { lastEventSeq := some 5, lastEventTimestamp := some 1000 } }
      { type := EventType.message, seq := 3 }).1.store =
      ({ lastEventSeq := some 5, lastEventTimestamp := some 1000 } :
        MiscStore) :=
  c9_watermark_no_regress 1000
    { store := { lastEventSeq := some 5, lastEventTimestamp := some 1000 } }
    { type := EventType.message, seq := 3 } 5 1000
    rfl rfl (by decide) rfl (by decide) (by decide) (by decide) (by decide)

/-- C10: every received non-heartbeat envelope makes the client emit the
synthetic local heartbeat (whose data names the received event type)
before the dispatch of the envelope itself, so any received event
refreshes local liveness; a received heartbeat envelope is emitted as a
heartbeat exactly once, not twice. -/
theorem c10_heartbeat_refresh (now : Nat) (st : ClientState)
    (e : EventResponse) :
    (e.type ≠ EventType.heartbeat →
      (onGrpcStreamEvent now st e).2.head? =
        some (LocalEvent.heartbeat
          ("onGrpcStreamEvent(" ++ eventTypeName e.type ++ ")"))) ∧
    (e.type = EventType.heartbeat →
      (onGrpcStreamEvent now st e).2.countP
        (fun ev => isHeartbeatEmission ev) = 1) := by
  constructor
  · intro h
    simp [onGrpcStreamEvent, h]
  · intro h
    obtain ⟨ty, pl, sq⟩ := e
    obtain rfl : ty = EventType.heartbeat := h
    simp [onGrpcStreamEvent, dispatchGrpcEvent, isHeartbeatEmission,
      List.countP_cons]

/-- C10 witness: a message envelope leads with the synthetic heartbeat;
a heartbeat envelope is emitted exactly once. -/
theorem c10_heartbeat_refresh_witness :
    (onGrpcStreamEvent 0 { } { type := EventType.message }).2.head? =
      some (LocalEvent.heartbeat
        ("onGrpcStreamEvent(" ++ eventTypeName EventType.message ++ ")")) ∧
    (onGrpcStreamEvent 0 { } { type := EventType.heartbeat }).2.countP
      (fun ev => isHeartbeatEmission ev) = 1 :=
  ⟨(c10_heartbeat_refresh 0 { } { type := EventType.message }).1 (by decide),
   (c10_heartbeat_refresh 0 { } { type := EventType.heartbeat }).2 rfl⟩

theorem onGrpcStreamEvent_login_swallowed (now : Nat) (st : ClientState)
    (e : EventResponse) (hW : st.waitingForLogin = true)
    (hL : st.isLoggedIn = true) (hT : e.type = EventType.login) :
    onGrpcStreamEvent now st e =
      (updateEventSeqStore now st e.seq,
       [LocalEvent.heartbeat
         ("onGrpcStreamEvent(" ++ eventTypeName EventType.login ++ ")")]) := by
  obtain ⟨s, hs⟩ := updateEventSeqStore_store_only now st e.seq
  obtain ⟨ty, pl, sq⟩ := e
  obtain rfl : ty = EventType.login := hT
  simp [onGrpcStreamEvent, dispatchGrpcEvent, hs, hW, hL]

theorem onGrpcStreamEvent_ready_swallowed (now : Nat) (st : ClientState)
    (e : EventResponse) (hW : st.waitingForReady = true)
    (hR : st.readyIndicatorValue = true) (hT : e.type = EventType.ready) :
    onGrpcStreamEvent now st e =
      (updateEventSeqStore now st e.seq,
       [LocalEvent.heartbeat
         ("onGrpcStreamEvent(" ++ eventTypeName EventType.ready ++ ")")]) := by
  obtain ⟨s, hs⟩ := updateEventSeqStore_store_only now st e.seq
  obtain ⟨ty, pl, sq⟩ := e
  obtain rfl : ty = EventType.ready := hT
  simp [onGrpcStreamEvent, dispatchGrpcEvent, hs, hW, hR]

/-- C4: a successful fast-path reconnect is transparent: with the
session logged in and ready, a matching-account login event and then a
ready event delivered while the transient waiting flags are set complete
the reconnect with reconnecting false, isLoggedIn true and both futures
resolved, and the only local emissions are synthetic heartbeats - no
login, logout or ready event reaches external listeners.  In general, a
login envelope received while waitingForLogin is set and the puppet is
already logged in is swallowed, and a ready envelope received while
waitingForReady is set and the puppet is already ready is swallowed. -/
theorem c4_fast_path_transparent (now : Nat) (accountId : Option String)
    (st : ClientState) (loginEvt readyEvt : EventResponse)
    (hLogged : st.isLoggedIn = true)
    (hReady : st.readyIndicatorValue = true)
    (hLT : loginEvt.type = EventType.login)
    (hRT : readyEvt.type = EventType.ready)
    (hAcc : accountId = some loginEvt.payload.contactId) :
    (fastPathReconnect now accountId st loginEvt readyEvt).1.reconnecting
        = false ∧
    (fastPathReconnect now accountId st loginEvt readyEvt).1.isLoggedIn
        = true ∧
    (fastPathReconnect now accountId st loginEvt readyEvt).2.2 = true ∧
    (∀ ev ∈ (fastPathReconnect now accountId st loginEvt readyEvt).2.1,
      isLoginLogoutOrReady ev = false) ∧
    (∀ n2 st2 e2, st2.waitingForLogin = true → st2.isLoggedIn = true →
      e2.type = EventType.login →
      ∀ ev ∈ (onGrpcStreamEvent n2 st2 e2).2,
        isLoginLogoutOrReady ev = false) ∧
    (∀ n2 st2 e2, st2.waitingForReady = true →
      st2.readyIndicatorValue = true → e2.type = EventType.ready →
      ∀ ev ∈ (onGrpcStreamEvent n2 st2 e2).2,
        isLoginLogoutOrReady ev = false) := by
  subst hAcc
  obtain ⟨lty, lpl, lsq⟩ := loginEvt
  obtain rfl : lty = EventType.login := hLT
  obtain ⟨rty, rpl, rsq⟩ := readyEvt
  obtain rfl : rty = EventType.ready := hRT
  obtain ⟨s1, hs1⟩ := updateEventSeqStore_store_only now
    { st with waitingForLogin := true, waitingForReady := true } lsq
  have hOn1 : onGrpcStreamEvent now
      { st with waitingForLogin := true, waitingForReady := true }
      ⟨EventType.login, lpl, lsq⟩ =
      ({ st with
          waitingForLogin := true
          waitingForReady := true
          store := s1 },
       [LocalEvent.heartbeat
         ("onGrpcStreamEvent(" ++ eventTypeName EventType.login ++ ")")]) := by
    rw [onGrpcStreamEvent_login_swallowed now
      { st with waitingForLogin := true, waitingForReady := true }
      ⟨EventType.login, lpl, lsq⟩ rfl hLogged rfl, hs1]
  have hd1 : deliverDuringReconnect now (some lpl.contactId)
      { st with waitingForLogin := true, waitingForReady := true }
      ⟨EventType.login, lpl, lsq⟩ =
      ({ st with
          waitingForLogin := false
          waitingForReady := true
          store := s1 },
       [LocalEvent.heartbeat
         ("onGrpcStreamEvent(" ++ eventTypeName EventType.login ++ ")")],
       OnLoginOutcome.resolvedLogin, false) := by
    simp only [deliverDuringReconnect, hOn1]
    simp [onLoginHandler, onReadyHandler, strTruthy]
  obtain ⟨s2, hs2⟩ := updateEventSeqStore_store_only now
    { st with
        waitingForLogin := false
        waitingForReady := true
        reconnecting := false
        store := s1 } rsq
  have hOn2 : onGrpcStreamEvent now
      { st with
          waitingForLogin := false
          waitingForReady := true
          reconnecting := false
          store := s1 }
      ⟨EventType.ready, rpl, rsq⟩ =
      ({ st with
          waitingForLogin := false
          waitingForReady := true
          reconnecting := false
          store := s2 },
       [LocalEvent.heartbeat
         ("onGrpcStreamEvent(" ++ eventTypeName EventType.ready ++ ")")]) := by
    rw [onGrpcStreamEvent_ready_swallowed now
      { st with
          waitingForLogin := false
          waitingForReady := true
          reconnecting := false
          store := s1 }
      ⟨EventType.ready, rpl, rsq⟩ rfl hReady rfl, hs2]
  have hd2 : deliverDuringReconnect now (some lpl.contactId)
      { st with
          waitingForLogin := false
          waitingForReady := true
          reconnecting := false
          store := s1 }
      ⟨EventType.ready, rpl, rsq⟩ =
      ({ st with
          waitingForLogin := false
          waitingForReady := false
          reconnecting := false
          store := s2 },
       [LocalEvent.heartbeat
         ("onGrpcStreamEvent(" ++ eventTypeName EventType.ready ++ ")")],
       OnLoginOutcome.ignored, true) := by
    simp only [deliverDuringReconnect, hOn2]
    simp [onLoginHandler, onReadyHandler]
  have hMain : fastPathReconnect now (some lpl.contactId) st
      ⟨EventType.login, lpl, lsq⟩ ⟨EventType.ready, rpl, rsq⟩ =
      ({ st with
          waitingForLogin := false
          waitingForReady := false
          reconnecting := false
          store := s2 },
       [LocalEvent.heartbeat
         ("onGrpcStreamEvent(" ++ eventTypeName EventType.login ++ ")"),
        LocalEvent.heartbeat
         ("onGrpcStreamEvent(" ++ eventTypeName EventType.ready ++ ")")],
       true) := by
    simp only [fastPathReconnect, hd1, hd2]
    rfl
  refine ⟨?_, ?_, ?_, ?_, ?_, ?_⟩
  · rw [hMain]
  · rw [hMain]
    exact hLogged
  · rw [hMain]
  · rw [hMain]
    intro ev hev
    simp only [List.mem_cons, List.not_mem_nil, or_false] at hev
    rcases hev with rfl | rfl <;> rfl
  · intro n2 st2 e2 hw hl ht ev hev
    rw [onGrpcStreamEvent_login_swallowed n2 st2 e2 hw hl ht] at hev
    simp only [List.mem_singleton] at hev
    subst hev
    rfl
  · intro n2 st2 e2 hw hr ht ev hev
    rw [onGrpcStreamEvent_ready_swallowed n2 st2 e2 hw hr ht] at hev
    simp only [List.mem_singleton] at hev
    subst hev
    rfl

/-- C4 witness: a concrete successful fast-path reconnect ends with
reconnecting false, isLoggedIn true, both futures resolved, and only
heartbeat emissions. -/
theorem c4_fast_path_transparent_witness :
    (fastPathReconnect 0 (some ("A1"))
      { isLoggedIn := true, readyIndicatorValue := true }
      { type := EventType.login, payload := { contactId := "A1" } }
      { type := EventType.ready }).1.reconnecting = false ∧
    (fastPathReconnect 0 (some ("A1"))
      { isLoggedIn := true, readyIndicatorValue := true }
      { type := EventType.login, payload := { contactId := "A1" } }
      { type := EventType.ready }).1.isLoggedIn = true ∧
    (fastPathReconnect 0 (some ("A1"))
      { isLoggedIn := true, readyIndicatorValue := true }
      { type := EventType.login, payload := { contactId := "A1" } }
      { type := EventType.ready }).2.2 = true ∧
    (∀ ev ∈ (fastPathReconnect 0 (some ("A1"))
      { isLoggedIn := true, readyIndicatorValue := true }
      { type := EventType.login, payload := { contactId := "A1" } }
      { type := EventType.ready }).2.1, isLoginLogoutOrReady ev = false) := by
  have h := c4_fast_path_transparent 0 (some ("A1"))
    { isLoggedIn := true, readyIndicatorValue := true }
    { type := EventType.login, payload := { contactId := "A1" } }
    { type := EventType.ready } rfl rfl rfl rfl rfl
  exact ⟨h.1, h.2.1, h.2.2.1, h.2.2.2.1⟩
